import Mathlib

/-!
Verification development for the flask-weixin source file `flask_weixin.py`.

The Python code is shallowly embedded: every function of the source that the
claims touch is translated into an executable Lean definition.  Machine
integers are modelled as `Int`/`Nat`, Python exceptions as `Except String`,
Python `None`-or-string values as `Option String`, and Python dicts built from
XML children as ordered association lists with last-binding-wins lookup.  The
SHA-1 function from `hashlib` is an external library call and is therefore a
parameter of the embedding (`sha1hex`), and the `lxml`/`ElementTree` XML
parser is modelled by an explicit character-level parser for the element
shapes the library produces and consumes.
-/

namespace Weixin

/-! ### Python-style helpers: truthiness, decimal ints, string ordering -/

/-- Python truthiness of an optional string: `None` and `""` are falsy. -/
def truthyStr : Option String → Bool
  | none => false
  | some s => !(s == "")

/-- The decimal digit character for `n < 10` (codepoint 48 + n), as produced
by Python `%d` / `str` formatting. -/
def digitCh (n : Nat) : Char := Char.ofNat (48 + n)

/-- Fuel-driven decimal printing of a natural number, most significant digit
first.  `natToChars (n+1) n` prints `n` in full. -/
def natToChars : Nat → Nat → List Char
  | 0, _ => []
  | fuel + 1, n =>
    if n < 10 then [digitCh n]
    else natToChars fuel (n / 10) ++ [digitCh (n % 10)]

/-- Decimal printing of a natural number, modelling Python `str`/`%d`. -/
def natToStr (n : Nat) : String := String.mk (natToChars (n + 1) n)

/-- Decimal printing of an integer, modelling Python `str` on `int`. -/
def intToStr (i : Int) : String :=
  if i < 0 then "-" ++ natToStr (-i).toNat else natToStr i.toNat

/-- Value of a decimal digit character, `none` for non-digits. -/
def digitVal (ch : Char) : Option Nat :=
  if 48 ≤ ch.toNat ∧ ch.toNat ≤ 57 then some (ch.toNat - 48) else none

/-- Left-to-right accumulation of decimal digits; fails on a non-digit. -/
def parseDigits : List Char → Nat → Option Nat
  | [], acc => some acc
  | ch :: rest, acc =>
    match digitVal ch with
    | some d => parseDigits rest (acc * 10 + d)
    | none => none

/-- Model of Python `int(s)` on a string: an optional minus sign followed by
at least one decimal digit; anything else raises, modelled as `none`. -/
def pyIntParse (s : String) : Option Int :=
  match s.data with
  | [] => none
  | ch :: rest =>
    if ch = '-' then
      if rest = [] then none
      else (parseDigits rest 0).map (fun n => -(n : Int))
    else (parseDigits (ch :: rest) 0).map (fun n => (n : Int))

/-- Lexicographic comparison of character lists by codepoint, the order
Python uses to compare strings. -/
def charListLe : List Char → List Char → Bool
  | [], _ => true
  | _ :: _, [] => false
  | a :: as, b :: bs =>
    if a.toNat < b.toNat then true
    else if b.toNat < a.toNat then false
    else charListLe as bs

/-- String comparison used by Python `sorted` on strings. -/
def strLe (a b : String) : Bool := charListLe a.data b.data

/-- Insertion into a sorted list of strings. -/
def insertSorted (x : String) : List String → List String
  | [] => [x]
  | y :: ys => if strLe x y then x :: y :: ys else y :: insertSorted x ys

/-- Sorting a list of strings ascending, modelling Python `sorted`. -/
def sortStrs : List String → List String
  | [] => []
  | x :: xs => insertSorted x (sortStrs xs)

/-! ### `Weixin.validate` (src/flask_weixin.py lines 72-101) -/

/-- The replay-window block of `validate` (lines 82-96).  With a zero
`expires_in` the window is disabled and the timestamp string is used as
given; otherwise the timestamp must parse as an integer, must not lie in the
future, and must not be older than `expiresIn` seconds; on success the
re-stringified integer is used in the signature computation (`str(timestamp)`
after `timestamp = int(timestamp)`).  `none` models the early `return False`
branches. -/
def windowCheck (expiresIn : Nat) (now : Int) (timestamp : String) : Option String :=
  if expiresIn = 0 then some timestamp
  else
    match pyIntParse timestamp with
    | none => none
    | some ts =>
      if now - ts < 0 then none
      else if (expiresIn : Int) < now - ts then none
      else some (intToStr ts)

/-- Embedding of `Weixin.validate`.  `sha1hex` stands for
`hashlib.sha1(utf8-bytes).hexdigest()`; the token and the window length come
from the configuration (`self.token`, `self.expires_in`), `now` models
`time.time()`.  A falsy token raises `RuntimeError` (lines 79-80). -/
def validate (sha1hex : String → String) (token : Option String) (expiresIn : Nat)
    (now : Int) (signature timestamp nonce : String) : Except String Bool :=
  if truthyStr token then
    match windowCheck expiresIn now timestamp with
    | none => .ok false
    | some ts2 =>
      .ok (signature == sha1hex (String.join (sortStrs [token.getD "", ts2, nonce])))
  else .error "WEIXIN_TOKEN is missing"

/-! ### Character-level model of the `etree` XML fragment parser

`Weixin.parse` relies on `lxml.etree`/`ElementTree.fromstring` and then walks
the direct children of the root, reading `child.tag` and `child.text`.  The
library call is modelled by an explicit parser for the element language the
weixin protocol uses: a `<xml>` root whose children each hold either a CDATA
section or plain text.  A child with CDATA text yields that character data; a
child with nonempty plain text yields it; an empty child yields `none`
(`child.text is None`). -/

/-- Generic splitter: finds the first occurrence of `sep` and returns the
characters before it and the characters after it. -/
def splitSeq (sep : List Char) : List Char → Option (List Char × List Char)
  | [] => none
  | x :: xs =>
    if sep.isPrefixOf (x :: xs) then some ([], (x :: xs).drop sep.length)
    else
      match splitSeq sep xs with
      | some (a, b) => some (x :: a, b)
      | none => none

/-- Whether `sep` occurs as a contiguous subsequence. -/
def hasSeq (sep : List Char) : List Char → Bool
  | [] => sep.isEmpty
  | x :: xs => sep.isPrefixOf (x :: xs) || hasSeq sep xs

/-- The characters opening a CDATA section. -/
def cdOpen : List Char := "<![CDATA[".data

/-- The characters closing a CDATA section. -/
def cdEnd : List Char := "]]>".data

/-- The closing root tag. -/
def closeXml : List Char := "</xml>".data

/-- An ordered tag-to-text mapping built from the direct children of the
root element (`raw` in `Weixin.parse`); a `none` value models a child whose
`text` is Python `None`. -/
abbrev Raw := List (String × Option String)

/-- The closing tag characters for a given tag name. -/
def parseChildClose (tag : List Char) : List Char := '<' :: ('/' :: (tag ++ ['>']))

/-- Reads a CDATA body followed by the closing tag. -/
def parseCdata (tag rest1 : List Char) : Except String ((String × Option String) × List Char) :=
  match splitSeq cdEnd (rest1.drop cdOpen.length) with
  | none => .error "XMLSyntaxError: unterminated CDATA"
  | some (txt, rest2) =>
    if (parseChildClose tag).isPrefixOf rest2 then
      .ok ((String.mk tag, some (String.mk txt)), rest2.drop (parseChildClose tag).length)
    else .error "XMLSyntaxError: mismatched closing tag"

/-- Reads a plain-text body up to the closing tag; an empty body models a
child whose `text` is Python `None`. -/
def parsePlain (tag rest1 : List Char) : Except String ((String × Option String) × List Char) :=
  match splitSeq (parseChildClose tag) rest1 with
  | none => .error "XMLSyntaxError: missing closing tag"
  | some (txt, rest2) =>
    .ok ((String.mk tag, if txt = [] then none else some (String.mk txt)), rest2)

/-- Parses the body of a child element after its tag name has been read. -/
def parseChildBody (tag rest1 : List Char) : Except String ((String × Option String) × List Char) :=
  if tag = [] then .error "XMLSyntaxError: empty tag"
  else if cdOpen.isPrefixOf rest1 then parseCdata tag rest1
  else parsePlain tag rest1

/-- Parses one child element `<Tag>body</Tag>`, returning the tag, its text
and the remaining input.  CDATA bodies yield their raw character data;
nonempty plain bodies yield their text; empty bodies yield `none`. -/
def parseChild (l : List Char) : Except String ((String × Option String) × List Char) :=
  match l with
  | '<' :: rest =>
    match splitSeq ['>'] rest with
    | none => .error "XMLSyntaxError: unterminated tag"
    | some (tag, rest1) => parseChildBody tag rest1
  | _ => .error "XMLSyntaxError: expected element"

/-- Parses the children of the root element until the closing `</xml>` tag,
recording each `tag -> text` pair in document order.  `fuel` bounds the
number of children. -/
def parseChildren : Nat → List Char → Except String Raw
  | fuel, l =>
    if l = closeXml then .ok []
    else
      match fuel with
      | 0 => .error "XMLSyntaxError: out of fuel"
      | f + 1 =>
        match parseChild l with
        | .error e => .error e
        | .ok (kv, rest) =>
          match parseChildren f rest with
          | .error e => .error e
          | .ok tl => .ok (kv :: tl)

/-- Model of `etree.fromstring` + the child walk of `Weixin.parse` for the
weixin payload language: a `<xml>` root whose direct children are simple
elements. -/
def parseXml (s : String) : Except String Raw :=
  if "<xml>".data.isPrefixOf s.data then parseChildren s.data.length (s.data.drop 5)
  else .error "XMLSyntaxError: expected xml root"

/-! ### The raw dict and `Weixin.format` -/

/-- Dict lookup on the raw tag map: Python dict insertion overwrites, so the
last binding of a key wins.  The outer `Option` is key presence, the inner is
the stored text. -/
def rawLookup (raw : Raw) (key : String) : Option (Option String) :=
  (raw.reverse.find? (fun p => p.1 == key)).map (fun p => p.2)

/-- `raw.get(key)`: `None` both when the key is absent and when the stored
text is `None`. -/
def rawGet (raw : Raw) (key : String) : Option String :=
  (rawLookup raw key).join

/-- Model of `int(raw.get(key, 0))`: an absent key gives the integer default
`0`; a present key whose text is `None` raises `TypeError`; a present string
parses with `int` or raises `ValueError`. -/
def pyIntOf (v : Option (Option String)) : Except String Int :=
  match v with
  | none => .ok 0
  | some none => .error "TypeError: int argument must be a string or a number"
  | some (some s) =>
    match pyIntParse s with
    | some n => .ok n
    | none => .error "ValueError: invalid literal for int"

/-- Model of the `datetime` produced by
`datetime.fromtimestamp(timestamp / 1000.0)`: the raw integer is treated as
millisecond-scale, so the stored value is that millisecond count. -/
structure PyDatetime where
  ms : Int
deriving DecidableEq, Repr

/-- The common envelope record built by `Weixin.format` (lines 126-135). -/
structure Formatted where
  id : Option String
  timestamp : Int
  receiver : Option String
  sender : Option String
  type : Option String
  time : PyDatetime
deriving DecidableEq, Repr

/-- A Python dict value produced by the per-type extractors. -/
inductive Val where
  | vstr (s : String)
  | vint (n : Int)
  | vnone
deriving DecidableEq, Repr

/-- The dict returned by `Weixin.parse`: the envelope fields updated with the
type-specific extractor fields. -/
structure ParsedMsg where
  base : Formatted
  extra : List (String × Val)
deriving DecidableEq, Repr

/-- Embedding of `Weixin.format`: `int(kwargs.get('CreateTime', 0))` runs
first and may raise; the remaining fields are plain `get` calls. -/
def format (raw : Raw) : Except String Formatted :=
  match pyIntOf (rawLookup raw "CreateTime") with
  | .error e => .error e
  | .ok timestamp =>
    .ok { id := rawGet raw "MsgId", timestamp := timestamp,
          receiver := rawGet raw "ToUserName", sender := rawGet raw "FromUserName",
          type := rawGet raw "MsgType", time := ⟨timestamp⟩ }

/-- Lifts an optional text to a dict value. -/
def valOf : Option String → Val
  | some s => .vstr s
  | none => .vnone

/-- Embedding of `Weixin.parse_text`. -/
def parse_text (raw : Raw) : List (String × Val) :=
  [("content", valOf (rawGet raw "Content"))]

/-- Embedding of `Weixin.parse_image`. -/
def parse_image (raw : Raw) : List (String × Val) :=
  [("picurl", valOf (rawGet raw "PicUrl"))]

/-- Embedding of `Weixin.parse_location`; `int(raw.get('Scale', 0))` may
raise. -/
def parse_location (raw : Raw) : Except String (List (String × Val)) :=
  match pyIntOf (rawLookup raw "Scale") with
  | .error e => .error e
  | .ok scale =>
    .ok [("location_x", valOf (rawGet raw "Location_X")),
         ("location_y", valOf (rawGet raw "Location_Y")),
         ("scale", .vint scale),
         ("label", valOf (rawGet raw "Label"))]

/-- Embedding of `Weixin.parse_link` (note the source reads lowercase tag
`url`). -/
def parse_link (raw : Raw) : List (String × Val) :=
  [("title", valOf (rawGet raw "Title")),
   ("description", valOf (rawGet raw "Description")),
   ("url", valOf (rawGet raw "url"))]

/-- Embedding of `Weixin.parse_event`. -/
def parse_event (raw : Raw) : List (String × Val) :=
  [("event", valOf (rawGet raw "Event")),
   ("event_key", valOf (rawGet raw "EventKey")),
   ("ticket", valOf (rawGet raw "Ticket")),
   ("latitude", valOf (rawGet raw "Latitude")),
   ("longitude", valOf (rawGet raw "Longitude")),
   ("precision", valOf (rawGet raw "Precision"))]

/-- Embedding of `Weixin.parse_invalid_type`. -/
def parse_invalid_type (_raw : Raw) : List (String × Val) := []

/-- Embedding of `getattr(self, 'parse_%s' % msg_type)` followed by the call:
only the six `parse_*` methods exist on the class, so any other type name
raises `AttributeError` (`getattr` is called without a default, which makes
the `if not callable(func)` fallback on line 119 unreachable). -/
def dispatchParse (msgType : String) (raw : Raw) : Except String (List (String × Val)) :=
  if msgType = "text" then .ok (parse_text raw)
  else if msgType = "image" then .ok (parse_image raw)
  else if msgType = "location" then parse_location raw
  else if msgType = "link" then .ok (parse_link raw)
  else if msgType = "event" then .ok (parse_event raw)
  else if msgType = "invalid_type" then .ok (parse_invalid_type raw)
  else .error ("AttributeError: parse_" ++ msgType)

/-- The dict-level part of `Weixin.parse` (lines 113-124): format the raw
map, substitute `invalid_type` for a falsy type in the dispatch variable
only, run the extractor, and merge. -/
def parseMsg (raw : Raw) : Except String ParsedMsg :=
  match format raw with
  | .error e => .error e
  | .ok formatted =>
    let msgType :=
      match formatted.type with
      | none => "invalid_type"
      | some t => if t = "" then "invalid_type" else t
    match dispatchParse msgType raw with
    | .error e => .error e
    | .ok extra => .ok ⟨formatted, extra⟩

/-- Embedding of `Weixin.parse` (lines 103-124). -/
def parse (content : String) : Except String ParsedMsg :=
  match parseXml content with
  | .error e => .error e
  | .ok raw => parseMsg raw

/-! ### Reply encoders (module-level functions, lines 320-382) -/

/-- Embedding of `_shared_reply`; `now` models `int(time.time())`. -/
def _shared_reply (username sender : String) (type : String) (now : Nat) : String :=
  "<ToUserName><![CDATA[" ++ username ++ "]]></ToUserName>" ++
  "<FromUserName><![CDATA[" ++ sender ++ "]]></FromUserName>" ++
  "<CreateTime>" ++ natToStr now ++ "</CreateTime>" ++
  "<MsgType><![CDATA[" ++ type ++ "]]></MsgType>"

/-- Embedding of `text_reply`. -/
def text_reply (username sender content : String) (now : Nat) : String :=
  "<xml>" ++ _shared_reply username sender "text" now ++
  "<Content><![CDATA[" ++ content ++ "]]></Content>" ++ "</xml>"

/-- Python `%s` formatting of a possibly-`None` value. -/
def pyStr : Option String → String
  | some s => s
  | none => "None"

/-- Embedding of `music_reply`; absent keyword values are `None` and format
as the string `None`. -/
def music_reply (username sender : String)
    (title description music_url hq_music_url : Option String) (now : Nat) : String :=
  "<xml>" ++ _shared_reply username sender "music" now ++
  "<Music>" ++
  "<Title><![CDATA[" ++ pyStr title ++ "]]></Title>" ++
  "<Description><![CDATA[" ++ pyStr description ++ "]]></Description>" ++
  "<MusicUrl><![CDATA[" ++ pyStr music_url ++ "]]></MusicUrl>" ++
  "<HQMusicUrl><![CDATA[" ++ pyStr hq_music_url ++ "]]></HQMusicUrl>" ++
  "</Music>" ++
  "</xml>"

/-- An article dict passed to `news_reply`. -/
structure Article where
  title : String
  description : String
  picurl : String
  url : String
deriving DecidableEq, Repr

/-- The `item_template` of `news_reply` filled with one article. -/
def newsItem (a : Article) : String :=
  "<item>" ++
  "<Title><![CDATA[" ++ a.title ++ "]]></Title>" ++
  "<Description><![CDATA[" ++ a.description ++ "]]></Description>" ++
  "<PicUrl><![CDATA[" ++ a.picurl ++ "]]></PicUrl>" ++
  "<Url><![CDATA[" ++ a.url ++ "]]></Url>" ++
  "</item>"

/-- Embedding of `news_reply` (lines 343-366): the shared envelope, the
article count via `%d`, and the concatenated item blocks in input order. -/
def news_reply (username sender : String) (items : List Article) (now : Nat) : String :=
  "<xml>" ++ _shared_reply username sender "news" now ++
  "<ArticleCount>" ++ natToStr items.length ++ "</ArticleCount>" ++
  "<Articles>" ++ String.join (items.map newsItem) ++ "</Articles>" ++
  "</xml>"

/-! ### `Weixin.reply` (lines 171-219) -/

/-- The keyword arguments accepted by `Weixin.reply`. -/
structure ReplyArgs where
  content : Option String := none
  title : Option String := none
  description : Option String := none
  music_url : Option String := none
  hq_music_url : Option String := none
  articles : List Article := []

/-- Embedding of `Weixin.reply`: a falsy `sender` argument falls back to the
configured `self.sender`; a still-falsy sender raises `RuntimeError`; the
three known types build their encodings and any other type returns `None`. -/
def reply (selfSender : Option String) (username : String) (type : String)
    (sender : Option String) (args : ReplyArgs) (now : Nat) : Except String (Option String) :=
  let s1 := if truthyStr sender then sender else selfSender
  if truthyStr s1 then
    let snd := s1.getD ""
    if type = "text" then .ok (some (text_reply username snd (args.content.getD "") now))
    else if type = "music" then
      .ok (some (music_reply username snd args.title args.description
        args.music_url args.hq_music_url now))
    else if type = "news" then .ok (some (news_reply username snd args.articles now))
    else .ok none
  else .error "WEIXIN_SENDER is missing"

/-! ### Outbound send path (`Weixin.send`, `text_send`, `_shared_send`) -/

/-- The custom-send endpoint with the access token substituted. -/
def customSendUrl (accessToken : String) : String :=
  "https://api.weixin.qq.com/cgi-bin/message/custom/send?access_token=" ++ accessToken

/-- Embedding of `_shared_send` (lines 391-396): the minimal send envelope.
The source defines it but never calls it. -/
def _shared_send (to_user : String) (type : String) : List (String × String) :=
  [("to_user", to_user), ("type", type)]

/-- Embedding of `text_send` (lines 385-388).  Line 386 calls
`_shared_reply(to_user, 'text')`, passing two arguments to a three-parameter
function, so every call raises `TypeError` before any payload is built or
posted; the intended `_shared_send` helper is never invoked.  (Line 15 also
imports the misspelled module `urlib2`, so the module cannot even be
imported in CPython.) -/
def text_send (_url _to_user _content : String) : Except String String :=
  .error "TypeError: shared_reply takes exactly 3 arguments, 2 given"

/-- Embedding of `Weixin.send` (lines 57-70). -/
def send (token : Option String) (to_user : String) (type : String)
    (content : Option String) : Except String (Option String) :=
  if truthyStr token then
    if to_user = "" then .error "to_user is missing"
    else
      let url := customSendUrl (token.getD "")
      if type = "text" then
        match text_send url to_user (content.getD "") with
        | .error e => .error e
        | .ok r => .ok (some r)
      else .ok none
  else .error "WEIXIN_TOKEN is missing"

/-! ### Handler resolution (`Weixin.view_func` lines 299-304) -/

/-- The outcome of handler resolution: a registered value, or the
`func = 'failed'` fallthrough when nothing matches. -/
inductive Resolution (α : Type) where
  | handler (f : α)
  | notFound
deriving DecidableEq, Repr

/-- Registry lookup with dict semantics: the last registration of a key
wins. -/
def registryLookup {α : Type} (registry : List (String × α)) (key : String) : Option α :=
  (registry.reverse.find? (fun p => p.1 == key)).map (fun p => p.2)

/-- Embedding of the dispatch of `view_func`: a text message whose content is
a registered key selects that handler, otherwise a registered `*` wildcard is
selected, otherwise nothing is found. -/
def resolveFunc {α : Type} (registry : List (String × α))
    (msgType content : Option String) : Resolution α :=
  match (if msgType = some "text" then content.bind (registryLookup registry) else none) with
  | some f => .handler f
  | none =>
    match registryLookup registry "*" with
    | some f => .handler f
    | none => .notFound

/-! ### Canonical child-encoding shapes

These express the character sequences the reply templates emit for a single
child element; they are definitionally equal to the corresponding template
fragments and give the round-trip lemmas a uniform shape to induct over. -/

/-- `<tag><![CDATA[v]]></tag>` as characters. -/
def encCdata (tag v : List Char) : List Char :=
  '<' :: (tag ++ ('>' :: (cdOpen ++ (v ++ (cdEnd ++ ('<' :: ('/' :: (tag ++ ['>']))))))))

/-- `<tag>v</tag>` as characters (plain text body). -/
def encText (tag v : List Char) : List Char :=
  '<' :: (tag ++ ('>' :: (v ++ ('<' :: ('/' :: (tag ++ ['>']))))))

/-- The children of the root element of a `text_reply`, followed by the
closing root tag. -/
def textReplyChildren (u s d c : List Char) : List Char :=
  encCdata "ToUserName".data u ++
  (encCdata "FromUserName".data s ++
  (encText "CreateTime".data d ++
  (encCdata "MsgType".data "text".data ++
  (encCdata "Content".data c ++ closeXml))))

end Weixin

/-! ## Theorems -/

namespace Weixin

theorem truthyStr_some {t : String} (h : t ≠ "") : truthyStr (some t) = true := by
  simp [truthyStr, h]

/-- C1: with the replay window disabled, `validate` accepts exactly the SHA-1
hex digest of the concatenation of the sorted list `[token, timestamp,
nonce]`, and rejects every other signature string. -/
theorem validate_sig_iff (sha1hex : String → String) (t sig ts nonce : String)
    (now : Int) (h : t ≠ "") :
    (validate sha1hex (some t) 0 now sig ts nonce = .ok true ↔
      sig = sha1hex (String.join (sortStrs [t, ts, nonce])))
    ∧ (sig ≠ sha1hex (String.join (sortStrs [t, ts, nonce])) →
      validate sha1hex (some t) 0 now sig ts nonce = .ok false) := by
  have hw : windowCheck 0 now ts = some ts := by simp [windowCheck]
  constructor
  · constructor
    · intro hv
      simp [validate, truthyStr_some h, hw, Option.getD] at hv
      exact hv
    · intro hv
      simp [validate, truthyStr_some h, hw, Option.getD, hv]
  · intro hne
    simp [validate, truthyStr_some h, hw, Option.getD]
    intro hv
    exact absurd hv hne

theorem validate_sig_iff_witness :
    (validate (fun s => s) (some "tok") 0 0 "sig" "12" "n" = .ok true ↔
      "sig" = (fun s : String => s) (String.join (sortStrs ["tok", "12", "n"])))
    ∧ ("sig" ≠ (fun s : String => s) (String.join (sortStrs ["tok", "12", "n"])) →
      validate (fun s => s) (some "tok") 0 0 "sig" "12" "n" = .ok false) :=
  validate_sig_iff (fun s => s) "tok" "sig" "12" "n" 0 (by decide)

theorem digitVal_digitCh {d : Nat} (h : d < 10) : digitVal (digitCh d) = some d := by
  interval_cases d <;> decide

theorem toNat_digitCh {d : Nat} (h : d < 10) : (digitCh d).toNat = 48 + d := by
  interval_cases d <;> decide

theorem natToChars_ne_nil (fuel n : Nat) (h : 0 < fuel) : natToChars fuel n ≠ [] := by
  cases fuel with
  | zero => omega
  | succ f =>
    by_cases hn : n < 10 <;> simp [natToChars, hn]

theorem natToChars_digits (fuel : Nat) :
    ∀ n ch, ch ∈ natToChars fuel n → 48 ≤ ch.toNat ∧ ch.toNat ≤ 57 := by
  induction fuel with
  | zero => intro n ch h; simp [natToChars] at h
  | succ f ih =>
    intro n ch h
    by_cases hn : n < 10
    · simp [natToChars, hn] at h
      subst h
      rw [toNat_digitCh hn]
      omega
    · simp [natToChars, hn] at h
      rcases h with h | h
      · exact ih (n / 10) ch h
      · subst h
        rw [toNat_digitCh (Nat.mod_lt n (by omega))]
        omega

theorem parseDigits_append (a b : List Char) (acc : Nat) :
    parseDigits (a ++ b) acc =
      match parseDigits a acc with
      | some v => parseDigits b v
      | none => none := by
  induction a generalizing acc with
  | nil => simp [parseDigits]
  | cons ch rest ih =>
    simp only [List.cons_append, parseDigits]
    cases digitVal ch with
    | none => simp
    | some d => simpa using ih (acc * 10 + d)

theorem parseDigits_natToChars (fuel : Nat) : ∀ n acc, n < fuel →
    parseDigits (natToChars fuel n) acc =
      some (acc * 10 ^ (natToChars fuel n).length + n) := by
  induction fuel with
  | zero => intro n acc h; omega
  | succ f ih =>
    intro n acc h
    by_cases hn : n < 10
    · simp [natToChars, hn, parseDigits, digitVal_digitCh hn]
    · have hdiv : n / 10 < f := by
        have h1 : n / 10 < n := Nat.div_lt_self (by omega) (by omega)
        omega
      rw [natToChars, if_neg hn, parseDigits_append, ih (n / 10) acc hdiv]
      simp only [parseDigits, digitVal_digitCh (Nat.mod_lt n (by omega)), List.length_append,
        List.length_singleton]
      have : (acc * 10 ^ (natToChars f (n / 10)).length + n / 10) * 10 + n % 10 =
          acc * 10 ^ ((natToChars f (n / 10)).length + 1) + n := by
        rw [pow_succ]
        have := Nat.div_add_mod n 10
        ring_nf
        omega
      rw [this]

theorem pyIntParse_natToStr (n : Nat) : pyIntParse (natToStr n) = some (n : Int) := by
  obtain ⟨hd, tl, hcons⟩ : ∃ hd tl, natToChars (n + 1) n = hd :: tl := by
    cases h : natToChars (n + 1) n with
    | nil => exact absurd h (natToChars_ne_nil (n + 1) n (by omega))
    | cons hd tl => exact ⟨hd, tl, rfl⟩
  have hdig := natToChars_digits (n + 1) n hd (by rw [hcons]; exact List.mem_cons_self hd tl)
  have hne : hd ≠ '-' := by
    intro h
    subst h
    simp at hdig
  have hparse : parseDigits (hd :: tl) 0 = some n := by
    rw [← hcons, parseDigits_natToChars (n + 1) n 0 (by omega)]
    simp
  show pyIntParse (String.mk (natToChars (n + 1) n)) = some (n : Int)
  rw [pyIntParse, hcons]
  simp [if_neg hne, hparse]

theorem pyIntParse_intToStr (k : Int) : pyIntParse (intToStr k) = some k := by
  by_cases hk : k < 0
  · have hdata : ("-" ++ natToStr (-k).toNat).data =
        '-' :: natToChars ((-k).toNat + 1) (-k).toNat := by
      simp [natToStr, String.data_append]
    have hne : natToChars ((-k).toNat + 1) (-k).toNat ≠ [] :=
      natToChars_ne_nil _ _ (by omega)
    have hparse : parseDigits (natToChars ((-k).toNat + 1) (-k).toNat) 0 = some (-k).toNat := by
      rw [parseDigits_natToChars _ _ 0 (by omega)]
      simp
    rw [intToStr, if_pos hk, pyIntParse, hdata]
    simp [if_neg hne, hparse]
    rw [show (-k ⊔ 0) = -k from max_eq_left (by omega)]
    omega
  · have hv : ((k.toNat : Nat) : Int) = k := by omega
    rw [intToStr, if_neg hk, pyIntParse_natToStr, hv]

/-- C5: with a 60 second replay window the validator rejects a timestamp 61
seconds in the past, accepts a correctly signed timestamp 59 seconds in the
past, rejects a timestamp 1 second in the future, and rejects every
timestamp string that does not parse as an integer. -/
theorem validate_window (sha1hex : String → String) (t sig nonce badts : String)
    (now : Int) (h : t ≠ "") (hbad : pyIntParse badts = none) :
    validate sha1hex (some t) 60 now sig (intToStr (now - 61)) nonce = .ok false
    ∧ validate sha1hex (some t) 60 now
        (sha1hex (String.join (sortStrs [t, intToStr (now - 59), nonce])))
        (intToStr (now - 59)) nonce = .ok true
    ∧ validate sha1hex (some t) 60 now sig (intToStr (now + 1)) nonce = .ok false
    ∧ validate sha1hex (some t) 60 now sig badts nonce = .ok false := by
  refine ⟨?_, ?_, ?_, ?_⟩
  · have hw : windowCheck 60 now (intToStr (now - 61)) = none := by
      rw [windowCheck, if_neg (by omega), pyIntParse_intToStr]
      have h1 : ¬ now - (now - 61) < 0 := by omega
      have h2 : (60 : Int) < now - (now - 61) := by omega
      simp [h1, h2]
    simp [validate, truthyStr_some h, hw]
  · have hw : windowCheck 60 now (intToStr (now - 59)) = some (intToStr (now - 59)) := by
      rw [windowCheck, if_neg (by omega), pyIntParse_intToStr]
      have h1 : ¬ now - (now - 59) < 0 := by omega
      have h2 : ¬ (60 : Int) < now - (now - 59) := by omega
      simp [h1, h2]
    simp [validate, truthyStr_some h, hw, Option.getD]
  · have hw : windowCheck 60 now (intToStr (now + 1)) = none := by
      rw [windowCheck, if_neg (by omega), pyIntParse_intToStr]
      have h1 : now - (now + 1) < 0 := by omega
      simp [h1]
    simp [validate, truthyStr_some h, hw]
  · have hw : windowCheck 60 now badts = none := by
      rw [windowCheck, if_neg (by omega), hbad]
    simp [validate, truthyStr_some h, hw]

/-- C4 counterexample: with the shared token unset, `validate` does not
return false at this input; it raises `RuntimeError` (modelled as an
`Except.error`). -/
theorem validate_no_token_cex :
    validate (fun s => s) none 0 0 "sig" "1" "n" = .error "WEIXIN_TOKEN is missing"
    ∧ validate (fun s => s) none 0 0 "sig" "1" "n" ≠ .ok false :=
  ⟨rfl, fun h => by simp [validate, truthyStr] at h⟩

/-- C4 (amended): when the shared token is unset (`None`) or empty,
`validate` raises `RuntimeError: WEIXIN_TOKEN is missing` for every
signature, timestamp and nonce, rather than returning false. -/
theorem validate_no_token (sha1hex : String → String) (expiresIn : Nat) (now : Int)
    (sig ts nonce : String) :
    validate sha1hex none expiresIn now sig ts nonce = .error "WEIXIN_TOKEN is missing"
    ∧ validate sha1hex (some "") expiresIn now sig ts nonce =
        .error "WEIXIN_TOKEN is missing" :=
  ⟨rfl, rfl⟩

/-- C3: `send(to_user, type='text', content=...)` never builds or posts the
documented JSON payload: `text_send` calls the three-parameter
`_shared_reply` with two arguments, so the call raises `TypeError`. -/
theorem send_text_typeerror :
    send (some "tok") "user123" "text" (some "hi") =
      .error "TypeError: shared_reply takes exactly 3 arguments, 2 given" := rfl

/-- C10: `reply` with a truthy sender (given or configured) and a type other
than `text`, `music` and `news` falls through all branches and returns
`None`, raising no error. -/
theorem reply_unknown_type (selfSender : Option String) (username ty : String)
    (sender : Option String) (args : ReplyArgs) (now : Nat)
    (h1 : ty ≠ "text") (h2 : ty ≠ "music") (h3 : ty ≠ "news")
    (h4 : truthyStr sender = true ∨ truthyStr selfSender = true) :
    reply selfSender username ty sender args now = .ok none := by
  by_cases hs : truthyStr sender
  · simp [reply, hs, h1, h2, h3]
  · rcases h4 with h4 | h4
    · exact absurd h4 hs
    · simp [reply, hs, h4, h1, h2, h3]

theorem reply_unknown_type_witness :
    reply none "bob" "foo" (some "alice")
      { content := none, title := none, description := none, music_url := none,
        hq_music_url := none, articles := [] } 0 = .ok none :=
  reply_unknown_type none "bob" "foo" (some "alice") _ 0
    (by decide) (by decide) (by decide) (Or.inl (by decide))

/-- C7: handler resolution order — a text message whose content is a
registered key selects that handler; otherwise a registered `*` wildcard is
selected; otherwise resolution is `notFound`. -/
theorem resolveFunc_order {α : Type} (registry : List (String × α))
    (ty content : Option String) :
    (∀ c f, ty = some "text" → content = some c → registryLookup registry c = some f →
      resolveFunc registry ty content = .handler f)
    ∧ (∀ g, ¬ (ty = some "text" ∧ ∃ c, content = some c ∧
          (registryLookup registry c).isSome = true) →
        registryLookup registry "*" = some g →
        resolveFunc registry ty content = .handler g)
    ∧ (¬ (ty = some "text" ∧ ∃ c, content = some c ∧
          (registryLookup registry c).isSome = true) →
        registryLookup registry "*" = none →
        resolveFunc registry ty content = .notFound) := by
  have hmiss : ¬ (ty = some "text" ∧ ∃ c, content = some c ∧
        (registryLookup registry c).isSome = true) →
      (if ty = some "text" then content.bind (registryLookup registry) else none) = none := by
    intro h
    by_cases hty : ty = some "text"
    · rw [if_pos hty]
      cases hcon : content with
      | none => rfl
      | some c =>
        cases hlook : registryLookup registry c with
        | none => simp [hlook]
        | some f =>
          exact absurd ⟨hty, c, hcon, by rw [hlook]; rfl⟩ h
    · rw [if_neg hty]
  refine ⟨?_, ?_, ?_⟩
  · intro c f hty hcon hlook
    simp [resolveFunc, hty, hcon, hlook]
  · intro g h hstar
    rw [resolveFunc, hmiss h, hstar]
  · intro h hstar
    rw [resolveFunc, hmiss h, hstar]

theorem resolveFunc_order_witness :
    resolveFunc [("help", 1)] (some "text") (some "help") = .handler 1
    ∧ resolveFunc [("*", 2)] (some "text") (some "unknown") = .handler 2
    ∧ resolveFunc ([] : List (String × Nat)) (some "text") (some "x") = .notFound := by
  refine ⟨?_, ?_, ?_⟩
  · exact (resolveFunc_order [("help", 1)] (some "text") (some "help")).1 "help" 1 rfl rfl rfl
  · refine (resolveFunc_order [("*", 2)] (some "text") (some "unknown")).2.1 2 ?_ rfl
    rintro ⟨-, c, hc, hl⟩
    obtain rfl : "unknown" = c := by injection hc
    exact absurd hl (by decide)
  · refine (resolveFunc_order ([] : List (String × Nat)) (some "text") (some "x")).2.2 ?_ rfl
    rintro ⟨-, c, hc, hl⟩
    obtain rfl : "x" = c := by injection hc
    exact absurd hl (by decide)

theorem validate_window_witness :
    validate (fun s => s) (some "tok") 60 100 "sig" (intToStr (100 - 61)) "n" = .ok false
    ∧ validate (fun s => s) (some "tok") 60 100
        ((fun s : String => s) (String.join (sortStrs ["tok", intToStr (100 - 59), "n"])))
        (intToStr (100 - 59)) "n" = .ok true
    ∧ validate (fun s => s) (some "tok") 60 100 "sig" (intToStr (100 + 1)) "n" = .ok false
    ∧ validate (fun s => s) (some "tok") 60 100 "sig" "abc" "n" = .ok false :=
  validate_window (fun s => s) "tok" "sig" "n" "abc" 100 (by decide) (by decide)

theorem isPrefixOf_append_self (l r : List Char) : l.isPrefixOf (l ++ r) = true := by
  induction l with
  | nil => simp [List.isPrefixOf]
  | cons x xs ih => simp [List.isPrefixOf, ih]

theorem hasSeq_cons_of_tail (sep : List Char) (x : Char) (xs : List Char)
    (h : hasSeq sep xs = true) : hasSeq sep (x :: xs) = true := by
  simp [hasSeq, h]

theorem hasSeq_append_mid (sep a b : List Char) (hsep : sep ≠ []) :
    hasSeq sep (a ++ (sep ++ b)) = true := by
  induction a with
  | nil =>
    cases sep with
    | nil => exact absurd rfl hsep
    | cons s0 st =>
      show hasSeq (s0 :: st) ((s0 :: st) ++ b) = true
      rw [List.cons_append, hasSeq, ← List.cons_append, isPrefixOf_append_self]
      rfl
  | cons x xs ih =>
    rw [List.cons_append]
    exact hasSeq_cons_of_tail _ _ _ ih

/-- C9: `news_reply` produces XML containing `<ArticleCount>n</ArticleCount>`
for `n` the number of articles, and its `<Articles>` element is exactly the
concatenation of one item block per article in input order. -/
theorem news_reply_structure (u s : String) (items : List Article) (now : Nat) :
    hasSeq ("<ArticleCount>" ++ natToStr items.length ++ "</ArticleCount>").data
      (news_reply u s items now).data = true
    ∧ news_reply u s items now =
        "<xml>" ++ _shared_reply u s "news" now ++
        "<ArticleCount>" ++ natToStr items.length ++ "</ArticleCount>" ++
        "<Articles>" ++ String.join (items.map newsItem) ++ "</Articles>" ++ "</xml>" := by
  constructor
  · have hdata : (news_reply u s items now).data =
        ("<xml>" ++ _shared_reply u s "news" now).data ++
        (("<ArticleCount>" ++ natToStr items.length ++ "</ArticleCount>").data ++
          ("<Articles>" ++ String.join (items.map newsItem) ++ "</Articles>" ++ "</xml>").data) := by
      simp [news_reply, String.data_append, List.append_assoc]
    rw [hdata]
    apply hasSeq_append_mid
    simp [String.data_append]
  · rfl

/-- C2 counterexample: a payload with the unrecognized `MsgType` text `foo`
makes `parse` raise `AttributeError` instead of returning a record of type
`invalid_type`. -/
theorem parse_unknown_msgtype_cex :
    parse "<xml><MsgType>foo</MsgType></xml>" = .error "AttributeError: parse_foo"
    ∧ (parse "<xml><MsgType>foo</MsgType></xml>").toOption = none :=
  ⟨rfl, rfl⟩

/-- C2 (amended): for every raw tag map whose `MsgType` text is a nonempty
string outside the six extractor names (and whose `CreateTime` formats
without error), `parse` raises `AttributeError: parse_<type>`: the `getattr`
call has no default, so the `invalid_type` fallback for unknown types is
unreachable. -/
theorem parseMsg_unknown_type (raw : Raw) (ty : String) (t : Int)
    (hty : rawGet raw "MsgType" = some ty) (hne : ty ≠ "")
    (hunk : ty ∉ (["text", "image", "location", "link", "event", "invalid_type"] : List String))
    (hct : pyIntOf (rawLookup raw "CreateTime") = .ok t) :
    parseMsg raw = .error ("AttributeError: parse_" ++ ty) := by
  simp only [List.mem_cons, List.mem_singleton, not_or] at hunk
  obtain ⟨h1, h2, h3, h4, h5, h6⟩ := hunk
  simp [parseMsg, format, hct, hty, hne, dispatchParse, h1, h2, h3, h4, h5, h6]

theorem parseMsg_unknown_type_witness :
    parseMsg [("MsgType", some "foo")] = .error ("AttributeError: parse_" ++ "foo") :=
  parseMsg_unknown_type [("MsgType", some "foo")] "foo" 0 rfl (by decide) (by decide) rfl

/-- C8 counterexample: a payload without any `MsgType` tag parses to a
record whose `type` field is `None`, not the string `invalid_type`. -/
theorem parse_missing_msgtype_cex :
    parse "<xml></xml>" = .ok ⟨⟨none, 0, none, none, none, ⟨0⟩⟩, []⟩
    ∧ (parse "<xml></xml>").map (fun m => m.base.type) ≠ .ok (some "invalid_type") := by
  have h1 : parse "<xml></xml>" = .ok ⟨⟨none, 0, none, none, none, ⟨0⟩⟩, []⟩ := rfl
  refine ⟨h1, ?_⟩
  rw [h1]
  intro h
  simp [Except.map] at h

/-- C8 (amended): when the `MsgType` key is absent, `parseMsg` substitutes
`invalid_type` only into the extractor-dispatch variable: the empty
`parse_invalid_type` extractor runs, so no type-specific field is added, but
the returned record keeps `type = None`. -/
theorem parseMsg_missing_msgtype (raw : Raw) (t : Int)
    (hm : rawLookup raw "MsgType" = none)
    (hct : pyIntOf (rawLookup raw "CreateTime") = .ok t) :
    parseMsg raw = .ok ⟨⟨rawGet raw "MsgId", t, rawGet raw "ToUserName",
      rawGet raw "FromUserName", none, ⟨t⟩⟩, []⟩ := by
  have hty : rawGet raw "MsgType" = none := by simp [rawGet, hm]
  have hd : dispatchParse "invalid_type" raw = .ok [] := rfl
  simp [parseMsg, format, hct, hty, hd]

theorem parseMsg_missing_msgtype_witness :
    parseMsg [] = .ok ⟨⟨none, 0, none, none, none, ⟨0⟩⟩, []⟩ :=
  parseMsg_missing_msgtype [] 0 rfl rfl

theorem splitSeq_skip (s0 : Char) (st : List Char) :
    ∀ c r : List Char, (∀ x ∈ c, (s0 == x) = false) →
      splitSeq (s0 :: st) (c ++ ((s0 :: st) ++ r)) = some (c, r) := by
  intro c
  induction c with
  | nil =>
    intro r _
    have hp : (s0 :: st).isPrefixOf (s0 :: (st ++ r)) = true := by
      have h := isPrefixOf_append_self (s0 :: st) r
      rwa [List.cons_append] at h
    show splitSeq (s0 :: st) (s0 :: (st ++ r)) = some ([], r)
    rw [splitSeq, if_pos hp]
    simp [List.drop_succ_cons, List.drop_left]
  | cons x xs ih =>
    intro r h
    have hx : (s0 == x) = false := h x (List.mem_cons_self x xs)
    have hnp : (s0 :: st).isPrefixOf (x :: (xs ++ ((s0 :: st) ++ r))) = false := by
      show ((s0 == x) && st.isPrefixOf (xs ++ ((s0 :: st) ++ r))) = false
      rw [hx, Bool.false_and]
    show splitSeq (s0 :: st) (x :: (xs ++ ((s0 :: st) ++ r))) = some (x :: xs, r)
    rw [splitSeq, if_neg (by rw [hnp]; exact Bool.false_ne_true), ih r (fun y hy => h y (List.mem_cons_of_mem x hy))]

theorem splitSeq_cdEnd : ∀ c r : List Char, hasSeq cdEnd c = false →
    splitSeq cdEnd (c ++ (cdEnd ++ r)) = some (c, r) := by
  intro c
  induction c with
  | nil =>
    intro r _
    have hp : cdEnd.isPrefixOf (']' :: (']' :: ('>' :: r))) = true := by
      have h := isPrefixOf_append_self cdEnd r
      exact h
    show splitSeq cdEnd (']' :: (']' :: ('>' :: r))) = some ([], r)
    rw [splitSeq, if_pos hp]
    rfl
  | cons x xs ih =>
    intro r h
    rw [hasSeq, Bool.or_eq_false_iff] at h
    obtain ⟨hpre, htail⟩ := h
    have hnil : ∀ l : List Char, List.isPrefixOf ([] : List Char) l = true := by
      intro l; cases l <;> rfl
    have hnp : cdEnd.isPrefixOf (x :: (xs ++ (cdEnd ++ r))) = false := by
      cases xs with
      | nil =>
        show ((']' == x) && ((']' == ']') && (('>' == ']') &&
          List.isPrefixOf [] ('>' :: r)))) = false
        simp
      | cons y ys =>
        cases ys with
        | nil =>
          show ((']' == x) && ((']' == y) && (('>' == ']') &&
            List.isPrefixOf [] (']' :: ('>' :: r))))) = false
          simp
        | cons z zs =>
          have e1 : cdEnd.isPrefixOf (x :: ((y :: (z :: zs)) ++ (cdEnd ++ r))) =
              ((']' == x) && ((']' == y) && ('>' == z))) := by
            show ((']' == x) && ((']' == y) && (('>' == z) &&
              List.isPrefixOf [] (zs ++ (cdEnd ++ r))))) = _
            rw [hnil, Bool.and_true]
          have e2 : cdEnd.isPrefixOf (x :: (y :: (z :: zs))) =
              ((']' == x) && ((']' == y) && ('>' == z))) := by
            show ((']' == x) && ((']' == y) && (('>' == z) &&
              List.isPrefixOf [] zs))) = _
            rw [hnil, Bool.and_true]
          rw [e1, ← e2]
          exact hpre
    show splitSeq cdEnd (x :: (xs ++ (cdEnd ++ r))) = some (x :: xs, r)
    rw [splitSeq, if_neg (by rw [hnp]; exact Bool.false_ne_true), ih r htail]

theorem parseCdata_encBody (tag v rest : List Char) (h3 : hasSeq cdEnd v = false) :
    parseCdata tag (cdOpen ++ (v ++ (cdEnd ++ (parseChildClose tag ++ rest)))) =
      .ok ((String.mk tag, some (String.mk v)), rest) := by
  rw [parseCdata, List.drop_left, splitSeq_cdEnd v _ h3]
  show (if (parseChildClose tag).isPrefixOf (parseChildClose tag ++ rest) then
      Except.ok ((String.mk tag, some (String.mk v)),
        (parseChildClose tag ++ rest).drop (parseChildClose tag).length)
    else Except.error "XMLSyntaxError: mismatched closing tag") =
    Except.ok ((String.mk tag, some (String.mk v)), rest)
  rw [if_pos (isPrefixOf_append_self _ _), List.drop_left]

theorem parsePlain_encBody (tag v rest : List Char) (h3 : v ≠ [])
    (h4 : ∀ x ∈ v, ('<' == x) = false) :
    parsePlain tag (v ++ (parseChildClose tag ++ rest)) =
      .ok ((String.mk tag, some (String.mk v)), rest) := by
  rw [parsePlain, parseChildClose, splitSeq_skip '<' ('/' :: (tag ++ ['>'])) v _ h4]
  show Except.ok ((String.mk tag, if v = [] then none else some (String.mk v)), rest) =
    Except.ok ((String.mk tag, some (String.mk v)), rest)
  rw [if_neg h3]

theorem parseChild_encCdata (tag v rest : List Char) (h1 : tag ≠ [])
    (h2 : ∀ x ∈ tag, ('>' == x) = false) (h3 : hasSeq cdEnd v = false) :
    parseChild (encCdata tag v ++ rest) = .ok ((String.mk tag, some (String.mk v)), rest) := by
  have e : encCdata tag v ++ rest =
      '<' :: (tag ++ (['>'] ++ (cdOpen ++ (v ++ (cdEnd ++ (parseChildClose tag ++ rest)))))) := by
    simp [encCdata, parseChildClose, List.append_assoc]
  rw [e, parseChild, splitSeq_skip '>' [] tag _ h2]
  show parseChildBody tag (cdOpen ++ (v ++ (cdEnd ++ (parseChildClose tag ++ rest)))) =
    Except.ok ((String.mk tag, some (String.mk v)), rest)
  rw [parseChildBody, if_neg h1, if_pos (isPrefixOf_append_self cdOpen _)]
  exact parseCdata_encBody tag v rest h3

theorem parseChild_encText (tag v rest : List Char) (h1 : tag ≠ [])
    (h2 : ∀ x ∈ tag, ('>' == x) = false) (h3 : v ≠ [])
    (h4 : ∀ x ∈ v, ('<' == x) = false) :
    parseChild (encText tag v ++ rest) = .ok ((String.mk tag, some (String.mk v)), rest) := by
  cases v with
  | nil => exact absurd rfl h3
  | cons v0 v' =>
    have e : encText tag (v0 :: v') ++ rest =
        '<' :: (tag ++ (['>'] ++ ((v0 :: v') ++ (parseChildClose tag ++ rest)))) := by
      simp [encText, parseChildClose, List.append_assoc]
    have hv0 : ('<' == v0) = false := h4 v0 (List.mem_cons_self v0 v')
    have hnp : cdOpen.isPrefixOf ((v0 :: v') ++ (parseChildClose tag ++ rest)) = false := by
      show (('<' == v0) &&
        List.isPrefixOf "![CDATA[".data (v' ++ (parseChildClose tag ++ rest))) = false
      rw [hv0, Bool.false_and]
    rw [e, parseChild, splitSeq_skip '>' [] tag _ h2]
    show parseChildBody tag ((v0 :: v') ++ (parseChildClose tag ++ rest)) =
      Except.ok ((String.mk tag, some (String.mk (v0 :: v'))), rest)
    rw [parseChildBody, if_neg h1, if_neg (by rw [hnp]; exact Bool.false_ne_true)]
    exact parsePlain_encBody tag (v0 :: v') rest h3 h4

theorem ne_closeXml_of_take2 (l : List Char) (c2 : Char) (h : l.take 2 = ['<', c2])
    (hc : c2 ≠ '/') : l ≠ closeXml := by
  intro he
  rw [he] at h
  have h2 : (['<', '/'] : List Char) = ['<', c2] := h
  injection h2 with _ h3
  injection h3 with h4 _
  exact hc h4.symm

theorem parseChildren_nil (f : Nat) : parseChildren f closeXml = .ok [] := by
  cases f <;> rfl

theorem parseChildren_step (f : Nat) (l rest : List Char) (kv : String × Option String)
    (tl : Raw) (hne : l ≠ closeXml) (h : parseChild l = .ok (kv, rest))
    (htl : parseChildren f rest = .ok tl) :
    parseChildren (f + 1) l = .ok (kv :: tl) := by
  have e1 : parseChildren (f + 1) l =
      (if l = closeXml then Except.ok [] else
        match parseChild l with
        | .error e => .error e
        | .ok (kv, rest) =>
          match parseChildren f rest with
          | .error e => .error e
          | .ok tl => .ok (kv :: tl)) := rfl
  rw [e1, if_neg hne, h]
  show (match parseChildren f rest with
    | .error e => .error e
    | .ok tl => Except.ok (kv :: tl)) = Except.ok (kv :: tl)
  rw [htl]

theorem parseChildren_textReply (f : Nat) (u s d c : List Char)
    (hu : hasSeq cdEnd u = false) (hs : hasSeq cdEnd s = false)
    (hc : hasSeq cdEnd c = false) (hd1 : d ≠ []) (hd2 : ∀ x ∈ d, ('<' == x) = false) :
    parseChildren (f + 5) (textReplyChildren u s d c) =
      .ok [("ToUserName", some (String.mk u)), ("FromUserName", some (String.mk s)),
           ("CreateTime", some (String.mk d)), ("MsgType", some "text"),
           ("Content", some (String.mk c))] := by
  have hne1 : encCdata "ToUserName".data u ++
      (encCdata "FromUserName".data s ++ (encText "CreateTime".data d ++
        (encCdata "MsgType".data "text".data ++ (encCdata "Content".data c ++ closeXml)))) ≠
      closeXml :=
    ne_closeXml_of_take2 _ 'T' rfl (by decide)
  have hne2 : encCdata "FromUserName".data s ++ (encText "CreateTime".data d ++
      (encCdata "MsgType".data "text".data ++ (encCdata "Content".data c ++ closeXml))) ≠
      closeXml :=
    ne_closeXml_of_take2 _ 'F' rfl (by decide)
  have hne3 : encText "CreateTime".data d ++
      (encCdata "MsgType".data "text".data ++ (encCdata "Content".data c ++ closeXml)) ≠
      closeXml :=
    ne_closeXml_of_take2 _ 'C' rfl (by decide)
  have hne4 : encCdata "MsgType".data "text".data ++ (encCdata "Content".data c ++ closeXml) ≠
      closeXml :=
    ne_closeXml_of_take2 _ 'M' rfl (by decide)
  have hne5 : encCdata "Content".data c ++ closeXml ≠ closeXml :=
    ne_closeXml_of_take2 _ 'C' rfl (by decide)
  show parseChildren ((((f + 1) + 1) + 1 + 1) + 1) (textReplyChildren u s d c) = _
  rw [textReplyChildren]
  refine parseChildren_step _ _ _ _ _ hne1
    (parseChild_encCdata "ToUserName".data u _ (by decide) (by decide) hu) ?_
  refine parseChildren_step _ _ _ _ _ hne2
    (parseChild_encCdata "FromUserName".data s _ (by decide) (by decide) hs) ?_
  refine parseChildren_step _ _ _ _ _ hne3
    (parseChild_encText "CreateTime".data d _ (by decide) (by decide) hd1 hd2) ?_
  refine parseChildren_step _ _ _ _ _ hne4
    (parseChild_encCdata "MsgType".data "text".data _ (by decide) (by decide) (by decide)) ?_
  refine parseChildren_step _ _ _ _ _ hne5
    (parseChild_encCdata "Content".data c _ (by decide) (by decide) hc) ?_
  exact parseChildren_nil f

theorem digits_not_lt (n : Nat) : ∀ x ∈ natToChars (n + 1) n, ('<' == x) = false := by
  intro x hx
  cases hbe : ('<' == x) with
  | false => rfl
  | true =>
    have hxe := eq_of_beq hbe
    have hdig := natToChars_digits (n + 1) n x hx
    rw [← hxe] at hdig
    exact absurd hdig (by decide)

set_option maxHeartbeats 1000000 in
set_option maxRecDepth 8192 in
/-- C6: decoding the XML built by `text_reply` recovers a record of type
`text` whose content field is exactly the original content string, for
receiver, sender and content free of the CDATA terminator. -/
theorem text_reply_roundtrip (u s c : String) (now : Nat)
    (hu : hasSeq cdEnd u.data = false) (hs : hasSeq cdEnd s.data = false)
    (hc : hasSeq cdEnd c.data = false) :
    parse (text_reply u s c now) =
      .ok ⟨⟨none, (now : Int), some u, some s, some "text", ⟨(now : Int)⟩⟩,
        [("content", Val.vstr c)]⟩ := by
  have e : (text_reply u s c now).data =
      "<xml>".data ++ textReplyChildren u.data s.data (natToChars (now + 1) now) c.data := by
    simp only [text_reply, _shared_reply, natToStr, String.data_append,
      textReplyChildren, encCdata, encText, cdOpen, cdEnd, closeXml,
      List.append_assoc, List.cons_append, List.nil_append, List.append_nil]
  have hpref : "<xml>".data.isPrefixOf (text_reply u s c now).data = true := by
    rw [e]
    exact isPrefixOf_append_self _ _
  have hdrop : ("<xml>".data ++
      textReplyChildren u.data s.data (natToChars (now + 1) now) c.data).drop 5 =
      textReplyChildren u.data s.data (natToChars (now + 1) now) c.data := by
    rw [show (5 : Nat) = ("<xml>".data).length from rfl, List.drop_left]
  have hlen5 : ("<xml>".data ++
      textReplyChildren u.data s.data (natToChars (now + 1) now) c.data).length =
      (textReplyChildren u.data s.data (natToChars (now + 1) now) c.data).length + 5 := by
    rw [List.length_append, show ("<xml>".data).length = 5 from rfl, Nat.add_comm]
  have hxml : parseXml (text_reply u s c now) =
      .ok [("ToUserName", some u), ("FromUserName", some s),
           ("CreateTime", some (natToStr now)), ("MsgType", some "text"),
           ("Content", some c)] := by
    rw [parseXml, if_pos hpref, e, hdrop, hlen5]
    exact parseChildren_textReply _ u.data s.data (natToChars (now + 1) now) c.data
      hu hs hc (natToChars_ne_nil _ _ (by omega)) (digits_not_lt now)
  have hct : pyIntOf (rawLookup
      [("ToUserName", some u), ("FromUserName", some s),
       ("CreateTime", some (natToStr now)), ("MsgType", some "text"),
       ("Content", some c)] "CreateTime") = .ok ((now : Nat) : Int) := by
    have el : rawLookup
        [("ToUserName", some u), ("FromUserName", some s),
         ("CreateTime", some (natToStr now)), ("MsgType", some "text"),
         ("Content", some c)] "CreateTime" = some (some (natToStr now)) := rfl
    rw [el, pyIntOf, pyIntParse_natToStr]
  have hfmt : format
      [("ToUserName", some u), ("FromUserName", some s),
       ("CreateTime", some (natToStr now)), ("MsgType", some "text"),
       ("Content", some c)] =
      .ok ⟨none, (now : Int), some u, some s, some "text", ⟨(now : Int)⟩⟩ := by
    rw [format, hct]
    rfl
  rw [parse, hxml]
  show parseMsg
      [("ToUserName", some u), ("FromUserName", some s),
       ("CreateTime", some (natToStr now)), ("MsgType", some "text"),
       ("Content", some c)] = _
  rw [parseMsg, hfmt]
  rfl

theorem text_reply_roundtrip_witness :
    parse (text_reply "bob" "alice" "hello" 123) =
      .ok ⟨⟨none, (123 : Int), some "bob", some "alice", some "text", ⟨(123 : Int)⟩⟩,
        [("content", Val.vstr "hello")]⟩ :=
  text_reply_roundtrip "bob" "alice" "hello" 123 (by decide) (by decide) (by decide)

end Weixin
